import Mathlib

/-!
Verification development for the Aetharia server core (Backend/Src).

The JavaScript sources are shallowly embedded as executable Lean
definitions:

* JS numbers are modelled as `ℚ` (all numbers reaching the handlers come
  from `JSON.parse`, which cannot produce `NaN` or `Infinity`); tile ids
  and tile/chunk coordinates that the code guards with `Number.isInteger`
  are modelled as `ℤ`.
* The JS `%` operator (truncated remainder, sign of the dividend) is
  modelled by `jsRem`, and `Math.floor` of a real division by `Int.fdiv`
  respectively `Int.floor` on `ℚ`.
* The 32-bit wrapping arithmetic of `mulberry32` and `chunkSeed`
  (`|0`, `>>>`, `Math.imul`, …) is modelled exactly on `ℕ`/`ℤ` with
  explicit `% 2^32` reductions.
* `surfaceNoise` is built from `Math.sin`, an IEEE-754 double
  transcendental; it is kept as an abstract parameter `WorldEnv.noise`
  (note the source's `surfaceNoise(worldX, rng)` ignores its `rng`
  argument, so the noise is a pure function of `worldX`).  None of the
  properties proved below depends on the concrete noise values.
* A JS object field that is only attached by later assignments
  (`player.velocityY`, `player.onGround`) is modelled as an `Option`,
  with `none` playing the role of `undefined`.
* The override `Map` keyed by the string `"x,y"` is modelled as an
  association list keyed by `(x, y)` (the string encoding is injective
  on integer pairs); `Map.set` prepends, `Map.get` takes the first hit.
-/

/-- JS `a % n` for a positive modulus `n`: truncated remainder, carrying
the sign of the dividend. -/
def jsRem (a n : ℤ) : ℤ :=
  if a < 0 then -((-a) % n) else a % n

/-- JS `Math.round`: round half toward positive infinity. -/
def jsRound (q : ℚ) : ℤ := ⌊q + 1/2⌋

/-- JS `ToInt32`: reduce an integer into `[-2^31, 2^31)` (the effect of
`| 0` and of `<<` on its operand). -/
def toInt32 (z : ℤ) : ℤ :=
  let r := z % 4294967296
  if r < 2147483648 then r else r - 4294967296

/-- One step of `chunkSeed`'s hash:
`hash = ((hash << 5) - hash + (k * p)) | 0`. -/
def hashStep (h k p : ℤ) : ℤ :=
  toInt32 (toInt32 (toInt32 h * 32) - h + k * p)

/-- `chunkSeed(chunkX, chunkY)` from `terrainGen.js`: combines the world
seed with the chunk position using prime multipliers, returns
`Math.abs(hash)`. -/
def chunkSeed (seed cx cy : ℤ) : ℕ :=
  (hashStep (hashStep seed cx 374761393) cy 668265263).natAbs

/-- The scrambling body of one `mulberry32` call, on the 32-bit unsigned
state `t0` (the value `seed + k·0x6d2b79f5` reduced mod `2^32`). -/
def mulberryScramble (t0 : ℕ) : ℕ :=
  let a := Nat.xor t0 (t0 >>> 15)
  let t1 := (a * (Nat.lor t0 1)) % 4294967296
  let b := Nat.xor t1 (t1 >>> 7)
  let c := (b * (Nat.lor t1 61)) % 4294967296
  let t2 := Nat.xor t1 ((t1 + c) % 4294967296)
  Nat.xor t2 (t2 >>> 14)

/-- The raw 32-bit output of the `(k+1)`-th call to a `mulberry32`
generator seeded with `seed0` (the closure's `seed += 0x6d2b79f5` is
exact double arithmetic; reduction mod `2^32` happens at the bitwise
operators). -/
def mulberryOut (seed0 k : ℕ) : ℕ :=
  mulberryScramble ((seed0 + (k + 1) * 1831565813) % 4294967296)

/-- The `[0,1)` rational produced by the `(k+1)`-th call of a
`mulberry32` generator: `out / 4294967296`. -/
def mulberryQ (seed0 k : ℕ) : ℚ :=
  (mulberryOut seed0 k : ℚ) / 4294967296

/-- The ambient deterministic inputs of terrain generation: the world
seed (`WORLD.SEED`) and the surface-noise function (the sinusoidal
`surfaceNoise`, abstracted because it is IEEE floating point). -/
structure WorldEnv where
  noise : ℤ → ℚ
  seed : ℤ

/- Tile ids from `Shared/Utils/constants.js` (`WORLD.TILES`). -/

def AIR : ℤ := 0
def DIRT : ℤ := 1
def STONE : ℤ := 2
def GRASS : ℤ := 3
def WATER : ℤ := 4
def SAND : ℤ := 5
def WOOD : ℤ := 6
def LEAVES : ℤ := 7

/-- `SOLID_TILES` as listed in `main.js` and `handleMessage.js`. -/
def SOLID_TILES : List ℤ := [DIRT, STONE, GRASS, SAND, WOOD, LEAVES]

/-- The per-cell body of `generateChunk`'s double loop.  `k` counts the
calls already made to the chunk's main `mulberry32` generator (seeded
with `mainSeed`); only the cave rule consumes it.  Returns the tile and
the updated call counter. -/
def tileAt (e : WorldEnv) (mainSeed : ℕ) (worldX worldY : ℤ) (k : ℕ) :
    ℤ × ℕ :=
  let noiseVal := e.noise worldX
  let surfaceY : ℤ := ⌊(-8 : ℚ) + noiseVal * 16⌋
  let depth := worldY - surfaceY
  let tile : ℤ :=
    if depth < 0 then AIR
    else if depth = 0 then GRASS
    else if depth ≤ 4 then DIRT
    else STONE
  let tile := if tile = AIR ∧ worldY > -2 then WATER else tile
  let tile :=
    if (tile = GRASS ∨ tile = DIRT) ∧ depth ≤ 1 then
      let neighborSurface : ℤ := ⌊(-8 : ℚ) + e.noise (worldX + 1) * 16⌋
      if (neighborSurface > -2 ∨ surfaceY > -2) ∧ |surfaceY - (-2)| ≤ 2
      then SAND else tile
    else tile
  let tile :=
    if tile = AIR ∧ depth < 0 ∧ depth ≥ -5 then
      let treeChance := mulberryQ (chunkSeed e.seed worldX 0) 0
      if treeChance > 85/100 then
        let trunkTop := surfaceY - 4
        let trunkBottom := surfaceY - 1
        let tile := if worldY ≥ trunkTop ∧ worldY ≤ trunkBottom then WOOD
                    else tile
        if worldY = trunkTop - 1 then LEAVES else tile
      else tile
    else tile
  if tile = STONE ∧ depth > 8 then
    let caveRoll := mulberryQ mainSeed k
    (if caveRoll < 8/100 then AIR else tile, k + 1)
  else (tile, k)

/-- A generated chunk: `{ x, y, tiles[32][32] }`, `tiles[y][x]`. -/
structure Chunk where
  x : ℤ
  y : ℤ
  tiles : List (List ℤ)
deriving DecidableEq

/-- `generateChunk(chunkX, chunkY)` from `terrainGen.js`, with the
sequential consumption of the chunk's `mulberry32` stream threaded
through the row-major cell order. -/
def generateChunk (e : WorldEnv) (cx cy : ℤ) : Chunk :=
  let mainSeed := chunkSeed e.seed cx cy
  let res := (List.range 32).foldl
    (fun (acc : List (List ℤ) × ℕ) (ly : ℕ) =>
      let rowRes := (List.range 32).foldl
        (fun (racc : List ℤ × ℕ) (lx : ℕ) =>
          let r := tileAt e mainSeed (cx * 32 + lx) (cy * 32 + ly) racc.2
          (racc.1 ++ [r.1], r.2))
        ([], acc.2)
      (acc.1 ++ [rowRes.1], rowRes.2))
    ([], 0)
  { x := cx, y := cy, tiles := res.1 }

/-- Read `chunk.tiles[ly][lx]`. -/
def chunkCell (c : Chunk) (ly lx : ℕ) : ℤ :=
  (c.tiles.getD ly []).getD lx 0

/-- The sparse override store of `worldState.js` (`modifications`). -/
def Overrides : Type := List ((ℤ × ℤ) × ℤ)

/-- `placeBlock(worldX, worldY, tileType)` from `worldState.js`: the
`Number.isInteger` guards on the coordinates hold by the `ℤ` typing;
the tile range guard is kept.  Returns the success flag and the store. -/
def placeBlock (ov : Overrides) (x y t : ℤ) : Bool × Overrides :=
  if t < 0 ∨ t > 7 then (false, ov)
  else (true, ((x, y), t) :: ov)

/-- `removeBlock(worldX, worldY)` from `worldState.js`. -/
def removeBlock (ov : Overrides) (x y : ℤ) : Bool × Overrides :=
  placeBlock ov x y AIR

/-- `getTile(worldX, worldY)` from `worldState.js`: override if present,
else the cell of the generated chunk, with the source's
`((w % CHUNK) + CHUNK) % CHUNK` local indices and
`Math.floor(w / CHUNK)` chunk coordinates. -/
def getTile (e : WorldEnv) (ov : Overrides) (x y : ℤ) : ℤ :=
  match List.lookup (x, y) ov with
  | some t => t
  | none =>
      let chunkX := Int.fdiv x 32
      let chunkY := Int.fdiv y 32
      let localX := jsRem (jsRem x 32 + 32) 32
      let localY := jsRem (jsRem y 32 + 32) 32
      chunkCell (generateChunk e chunkX chunkY) localY.toNat localX.toNat

/-- `getModifiedChunk(chunkX, chunkY)` from `worldState.js`: the
generated chunk with every stored override in its bounds layered on. -/
def getModifiedChunk (e : WorldEnv) (ov : Overrides) (cx cy : ℤ) : Chunk :=
  let chunk := generateChunk e cx cy
  { chunk with
    tiles := (List.range 32).map (fun (ly : ℕ) =>
      (List.range 32).map (fun (lx : ℕ) =>
        match List.lookup (cx * 32 + (lx : ℤ), cy * 32 + (ly : ℤ)) ov with
        | some t => t
        | none => chunkCell chunk ly lx)) }

/-- A zone's rectangular bounds in chunk coordinates
(`ZONES.DEFINITIONS`). -/
structure ZoneBounds where
  minX : ℤ
  maxX : ℤ
  minY : ℤ
  maxY : ℤ

/-- `ZONES.DEFINITIONS` from `Shared/Utils/constants.js`, in object
insertion order (the order `getZoneForPosition` scans). -/
def ZONE_DEFINITIONS : List (String × ZoneBounds) :=
  [("zone_central", ⟨-4, 3, -4, 3⟩),
   ("zone_north", ⟨-4, 3, -12, -5⟩),
   ("zone_south", ⟨-4, 3, 4, 11⟩),
   ("zone_east", ⟨4, 11, -4, 3⟩),
   ("zone_west", ⟨-12, -5, -4, 3⟩)]

/-- `ZONES.DEFAULT`. -/
def ZONE_DEFAULT : String := "zone_central"

/-- The `zonePlayers` registry of `zoneManager.js`: zone id to its set
of player ids (a duplicate-free list models the JS `Set`). -/
def ZoneReg : Type := List (String × List String)

/-- The registry after module initialisation: every defined zone with an
empty player set. -/
def initialZoneReg : ZoneReg :=
  ZONE_DEFINITIONS.map (fun zd => (zd.1, []))

/-- Add `pid` to zone `z`'s set, creating the zone entry if absent
(the `if (!zonePlayers[zoneId])` guard followed by `Set.add`). -/
def zoneAdd (reg : ZoneReg) (z pid : String) : ZoneReg :=
  match reg with
  | [] => [(z, [pid])]
  | (z', members) :: rest =>
      if z' = z then
        (z', if pid ∈ members then members else pid :: members) :: rest
      else
        (z', members) :: zoneAdd rest z pid

/-- `removePlayerFromZone(playerId, zoneId)`: delete from the zone's set
when the zone entry exists; a `null` zone id (modelled `none`) hits no
entry and is a no-op. -/
def zoneRemove (reg : ZoneReg) (z : Option String) (pid : String) :
    ZoneReg :=
  match z with
  | none => reg
  | some z =>
      reg.map (fun e => if e.1 = z then (e.1, e.2.filter (· ≠ pid)) else e)

/-- `getZonePlayers(zoneId)`. -/
def getZonePlayers (reg : ZoneReg) (z : String) : List String :=
  (reg.lookup z).getD []

/-- `getZoneForPosition(tileX, tileY)`: floor the tile position to chunk
coordinates and scan the zone definitions in order; fall back to the
default zone. -/
def getZoneForPosition (x y : ℚ) : String :=
  let chunkX : ℤ := ⌊x / 32⌋
  let chunkY : ℤ := ⌊y / 32⌋
  match ZONE_DEFINITIONS.find? (fun zd =>
      decide (zd.2.minX ≤ chunkX ∧ chunkX ≤ zd.2.maxX ∧
              zd.2.minY ≤ chunkY ∧ chunkY ≤ zd.2.maxY)) with
  | some zd => zd.1
  | none => ZONE_DEFAULT

/-- `assignPlayerToZone(playerId, tileX, tileY)`: look the zone up and
add the player to its set; returns the zone id (and the registry, made
explicit here). -/
def assignPlayerToZone (reg : ZoneReg) (pid : String) (x y : ℚ) :
    String × ZoneReg :=
  let zoneId := getZoneForPosition x y
  (zoneId, zoneAdd reg zoneId pid)

/-- `checkZoneTransfer(playerId, currentZone, newX, newY)`: when the
zone of the new position differs from the current zone, remove the
player from the current zone, add it to the new one and return it;
otherwise return `null` (`none`). -/
def checkZoneTransfer (reg : ZoneReg) (pid : String)
    (currentZone : Option String) (newX newY : ℚ) :
    Option String × ZoneReg :=
  let newZone := getZoneForPosition newX newY
  if some newZone ≠ currentZone then
    let reg := zoneRemove reg currentZone pid
    (some newZone, zoneAdd reg newZone pid)
  else (none, reg)

/-- An inventory item (`{ name, type, quantity }`). -/
structure Item where
  name : String
  type : String
  quantity : ℤ
deriving DecidableEq

/-- The player object returned by `createPlayer` in
`Backend/Src/Player/player.js`, plus the two fields `velocityY` and
`onGround` that other modules attach by assignment: `createPlayer` does
NOT declare them, so they start out as JS `undefined`, modelled `none`. -/
structure Player where
  id : String
  x : ℚ
  y : ℚ
  zone : Option String
  inventory : List Item
  name : String
  color : String
  connectedAt : ℤ
  lastMessageAt : ℤ
  messageCount : ℕ
  isAI : Bool
  velocityY : Option ℚ
  onGround : Option Bool
deriving DecidableEq

/-- `createPlayer(id)` as called from `main.js` (no options): spawn at
`PLAYER.SPAWN_X = 0`, `PLAYER.SPAWN_Y = 0`, `zone: null`, empty
inventory, name the first 6 characters of the id, default color, both
timestamps `Date.now()` (`now`).  `velocityY`/`onGround` are absent. -/
def createPlayer (id : String) (now : ℤ) : Player :=
  { id := id
    x := 0
    y := 0
    zone := none
    inventory := []
    name := id.take 6
    color := "#FF5722"
    connectedAt := now
    lastMessageAt := now
    messageCount := 0
    isAI := false
    velocityY := none
    onGround := none }

/-- `findSpawnSurface(spawnX)` from `main.js`: scan `y` from −20 up to
49 for the first non-solid tile with a solid tile directly below;
fall back to 0. -/
def findSpawnSurface (e : WorldEnv) (ov : Overrides) (spawnX : ℤ) : ℤ :=
  match (List.range 70).find? (fun i =>
      let y : ℤ := -20 + i
      let tile := getTile e ov spawnX y
      let tileBelow := getTile e ov spawnX (y + 1)
      !(SOLID_TILES.contains tile) && SOLID_TILES.contains tileBelow) with
  | some i => -20 + i
  | none => 0

/-- The server-side state the handlers touch: the override store of
`worldState.js` and the zone registry of `zoneManager.js`. -/
structure ServerState where
  overrides : Overrides
  zones : ZoneReg

/-- An inbound client message (parsed JSON).  Fields that a given type
does not carry are `none`/`false`, matching JS `undefined` under the
`typeof`/`Number.isInteger` guards; numeric fields are `ℚ` since JSON
numbers need not be integers. -/
structure ClientMsg where
  type : String
  x : Option ℚ := none
  y : Option ℚ := none
  jump : Bool := false
  message : Option String := none
  chunkX : Option ℚ := none
  chunkY : Option ℚ := none
  tile : Option ℚ := none
  isAI : Bool := false
  name : Option String := none
  color : Option String := none
  target : Option String := none
  action : Option String := none

/-- An outbound frame payload (the JSON the server serializes).  The
`welcome` chunk grid and the `existingPlayers` list are elided: no claim
inspects them. -/
inductive Wire where
  | errorMsg (message : String)
  | welcome (id : String) (x y : ℚ) (zone : String)
  | playerJoinedAt (id name color : String) (x y : ℚ)
  | playerJoined (id : String) (x y : ℚ)
  | playerLeft (id : String)
  | zoneChanged (zone : String)
  | playerMoved (id : String) (x y : ℚ)
  | chatMessage (id : String) (message : String) (timestamp : ℤ)
  | chunkData (chunk : Chunk)
  | blockUpdate (x y : ℤ) (tile : ℤ) (placedBy : String)
  | interactResult (target action result message : String)
  | profileUpdate (id name color : String)
deriving DecidableEq

/-- An outbound send: a direct reply on the sender's socket, or a
zone-scoped broadcast with an optional excluded player id. -/
inductive OutEvent where
  | reply (w : Wire)
  | toZone (zone : Option String) (w : Wire) (exclude : Option String)
deriving DecidableEq

/-- The sanitization pipeline of `handleChat`:
`message.trim().substring(0, 500)` then strip the control characters
`\x00`–`\x1F` and `\x7F`. -/
def sanitizeChat (s : String) : String :=
  let m := s.trim
  let m := String.mk (m.toList.take 500)
  String.mk (m.toList.filter (fun c => !(c.toNat ≤ 31 || c.toNat = 127)))

/-- The name pipeline of `handleSetProfile`:
`name.trim().substring(0, 16)` then strip control characters. -/
def sanitizeName (s : String) : String :=
  let m := s.trim
  let m := String.mk (m.toList.take 16)
  String.mk (m.toList.filter (fun c => !(c.toNat ≤ 31 || c.toNat = 127)))

/-- The color guard of `handleSetProfile`: `/^#[0-9A-Fa-f]{6}$/`. -/
def isHexColor (s : String) : Bool :=
  match s.toList with
  | '#' :: rest =>
      rest.length = 6 && rest.all (fun c =>
        ('0' ≤ c && c ≤ '9') || ('A' ≤ c && c ≤ 'F') ||
        ('a' ≤ c && c ≤ 'f'))
  | _ => false

/-- The zone-transfer tail of `handleMove` (its lines from
`const oldZone = player.zone` to the `zoneChanged` send): run
`checkZoneTransfer` on the player's committed position; on a transfer,
update the player's zone and emit `playerLeft` to the old zone,
`playerJoined` (excluding the mover) to the new one and a private
`zoneChanged`. -/
def moveZoneTransferStep (pid : String) (p : Player) (st : ServerState) :
    Player × ServerState × List OutEvent :=
  let oldZone := p.zone
  let tz := checkZoneTransfer st.zones pid oldZone p.x p.y
  let st := { st with zones := tz.2 }
  match tz.1 with
  | some nz =>
      ({ p with zone := some nz }, st,
       [OutEvent.toZone oldZone (.playerLeft pid) none,
        OutEvent.toZone (some nz) (.playerJoined pid p.x p.y) (some pid),
        OutEvent.reply (.zoneChanged nz)])
  | none => (p, st, [])

/-- `handleMove` from `Backend/Src/Handlers/handleMessage.js` (the
server-side-gravity version).  Note in the source: `headY` is
`Math.floor(player.y)` and `feetY` is that *floored* value plus `0.9`,
the client `y` compatibility block is a no-op, and the jump branch
hardcodes `-280`. -/
def handleMove (e : WorldEnv) (msg : ClientMsg) (p : Player)
    (pid : String) (st : ServerState) :
    Player × ServerState × List OutEvent :=
  match msg.x with
  | none => (p, st, [.reply (.errorMsg "Move requires numeric x")])
  | some x =>
    let dx := |x - p.x|
    if dx > 20 then
      (p, st, [.reply (.errorMsg "Movement too large")])
    else
      let newTileX : ℤ := ⌊x + (if x > p.x then (9 : ℚ)/10 else 0)⌋
      let playerTileY : ℤ := ⌊p.y⌋
      let headY : ℚ := (playerTileY : ℚ)
      let feetY : ℚ := (playerTileY : ℚ) + 9/10
      let headTile := getTile e st.overrides newTileX ⌊headY⌋
      let feetTile := getTile e st.overrides newTileX ⌊feetY⌋
      let p := if headTile ∈ SOLID_TILES ∨ feetTile ∈ SOLID_TILES then p
               else { p with x := x }
      let p := if msg.jump ∧ p.onGround = some true then
                 { p with velocityY := some (-280), onGround := some false }
               else p
      let r := moveZoneTransferStep pid p st
      (r.1, r.2.1,
       r.2.2 ++ [.toZone r.1.zone (.playerMoved pid r.1.x r.1.y)
         (some pid)])

/-- `handleChat`: silently drop empty or non-string messages, sanitize,
broadcast `chatMessage` to the whole zone (sender included). -/
def handleChat (now : ℤ) (msg : ClientMsg) (p : Player) (pid : String)
    (st : ServerState) : Player × ServerState × List OutEvent :=
  match msg.message with
  | none => (p, st, [])
  | some m =>
      if m.trim.length = 0 then (p, st, [])
      else
        let m := sanitizeChat m
        if m.length = 0 then (p, st, [])
        else (p, st, [.toZone p.zone (.chatMessage pid m now) none])

/-- `handleRequestChunk`: integer guards, the 5-chunk Chebyshev radius
around the player's chunk, then the merged chunk. -/
def handleRequestChunk (e : WorldEnv) (msg : ClientMsg) (p : Player)
    (st : ServerState) : Player × ServerState × List OutEvent :=
  match msg.chunkX, msg.chunkY with
  | some cx, some cy =>
      if cx.den ≠ 1 ∨ cy.den ≠ 1 then
        (p, st, [.reply (.errorMsg "Chunk coordinates must be integers")])
      else
        let cxi := cx.num
        let cyi := cy.num
        let playerChunkX : ℤ := ⌊p.x / 32⌋
        let playerChunkY : ℤ := ⌊p.y / 32⌋
        let chunkDistance := max |cxi - playerChunkX| |cyi - playerChunkY|
        if chunkDistance > 5 then
          (p, st,
           [.reply (.errorMsg "Requested chunk is too far from your position")])
        else
          (p, st,
           [.reply (.chunkData (getModifiedChunk e st.overrides cxi cyi))])
  | _, _ =>
      (p, st,
       [.reply (.errorMsg "requestChunk requires numeric chunkX and chunkY")])

/-- `handleInteract` (stub): JS falsiness of `target`/`action` covers
both a missing field and the empty string. -/
def handleInteract (msg : ClientMsg) (p : Player) (st : ServerState) :
    Player × ServerState × List OutEvent :=
  match msg.target, msg.action with
  | some t, some a =>
      if t = "" ∨ a = "" then
        (p, st, [.reply (.errorMsg "interact requires target and action")])
      else
        (p, st,
         [.reply (.interactResult t a "not_implemented"
           "Interactions coming soon!")])
  | _, _ =>
      (p, st, [.reply (.errorMsg "interact requires target and action")])

/-- `handlePlaceBlock`: integer coordinate guards, tile range guard,
the 10/50 range gate around the rounded player position, the write, and
the `blockUpdate` broadcast. -/
def handlePlaceBlock (_e : WorldEnv) (msg : ClientMsg) (p : Player)
    (pid : String) (st : ServerState) :
    Player × ServerState × List OutEvent :=
  match msg.x, msg.y with
  | some qx, some qy =>
      if qx.den ≠ 1 ∨ qy.den ≠ 1 then
        (p, st, [.reply (.errorMsg "placeBlock requires integer x and y")])
      else
        match msg.tile with
        | none =>
            (p, st,
             [.reply (.errorMsg "placeBlock requires valid tile type (0-7)")])
        | some qt =>
            if qt.den ≠ 1 ∨ qt.num < 0 ∨ qt.num > 7 then
              (p, st,
               [.reply (.errorMsg "placeBlock requires valid tile type (0-7)")])
            else
              let x := qx.num
              let y := qy.num
              let tile := qt.num
              let maxRange : ℤ := if p.isAI then 50 else 10
              let dx := |x - jsRound p.x|
              let dy := |y - jsRound p.y|
              if dx > maxRange ∨ dy > maxRange then
                (p, st,
                 [.reply
                   (.errorMsg "Block placement too far from your position")])
              else
                let res := placeBlock st.overrides x y tile
                if !res.1 then
                  (p, st, [.reply (.errorMsg "Failed to place block")])
                else
                  (p, { st with overrides := res.2 },
                   [.toZone p.zone (.blockUpdate x y tile pid) none])
  | _, _ => (p, st, [.reply (.errorMsg "placeBlock requires integer x and y")])

/-- `handleSetProfile`: sanitize the name when present and non-blank,
accept the color only against `#RRGGBB`, broadcast `profileUpdate`. -/
def handleSetProfile (msg : ClientMsg) (p : Player) (pid : String)
    (st : ServerState) : Player × ServerState × List OutEvent :=
  let p :=
    match msg.name with
    | some n => if n.trim.length > 0 then { p with name := sanitizeName n }
                else p
    | none => p
  let p :=
    match msg.color with
    | some c => if isHexColor c then { p with color := c } else p
    | none => p
  (p, st, [.toZone p.zone (.profileUpdate pid p.name p.color) none])

/-- `handleRemoveBlock`: integer coordinate guards, the 10/50 range
gate, the `AIR` check against the current tile, the `AIR`-override
write and the `blockUpdate` broadcast. -/
def handleRemoveBlock (e : WorldEnv) (msg : ClientMsg) (p : Player)
    (pid : String) (st : ServerState) :
    Player × ServerState × List OutEvent :=
  match msg.x, msg.y with
  | some qx, some qy =>
      if qx.den ≠ 1 ∨ qy.den ≠ 1 then
        (p, st, [.reply (.errorMsg "removeBlock requires integer x and y")])
      else
        let x := qx.num
        let y := qy.num
        let maxRange : ℤ := if p.isAI then 50 else 10
        let dx := |x - jsRound p.x|
        let dy := |y - jsRound p.y|
        if dx > maxRange ∨ dy > maxRange then
          (p, st,
           [.reply (.errorMsg "Block removal too far from your position")])
        else
          let currentTile := getTile e st.overrides x y
          if currentTile = AIR then
            (p, st,
             [.reply (.errorMsg "No block to remove at that position")])
          else
            let res := removeBlock st.overrides x y
            if !res.1 then
              (p, st, [.reply (.errorMsg "Failed to remove block")])
            else
              (p, { st with overrides := res.2 },
               [.toZone p.zone (.blockUpdate x y AIR pid) none])
  | _, _ => (p, st, [.reply (.errorMsg "removeBlock requires integer x and y")])

/-- `handleMessage` from `Backend/Src/Handlers/handleMessage.js`: the
rate limiter (drop, silently and without touching any state, anything
within `MIN_MESSAGE_INTERVAL = 50` ms of the previous accepted message),
the `lastMessageAt` update, and the `type` switch with an `error` reply
in the default branch. -/
def handleMessage (e : WorldEnv) (now : ℤ) (msg : ClientMsg)
    (pid : String) (p : Player) (st : ServerState) :
    Player × ServerState × List OutEvent :=
  if now - p.lastMessageAt < 50 then (p, st, [])
  else
    let p := { p with lastMessageAt := now }
    if msg.type = "move" then handleMove e msg p pid st
    else if msg.type = "chat" then handleChat now msg p pid st
    else if msg.type = "requestChunk" then handleRequestChunk e msg p st
    else if msg.type = "interact" then handleInteract msg p st
    else if msg.type = "placeBlock" then handlePlaceBlock e msg p pid st
    else if msg.type = "setProfile" then handleSetProfile msg p pid st
    else if msg.type = "removeBlock" then handleRemoveBlock e msg p pid st
    else
      (p, st,
       [.reply (.errorMsg ("Unknown message type: " ++ msg.type))])

/-- The `ws.on('message')` dispatcher in `main.js`: an
`identify {isAI: true}` frame is handled inline — *before* the rate
limiter inside `handleMessage` — and flips the `isAI` flag; everything
else is forwarded to `handleMessage`. -/
def receiveMessage (e : WorldEnv) (now : ℤ) (msg : ClientMsg)
    (pid : String) (p : Player) (st : ServerState) :
    Player × ServerState × List OutEvent :=
  if msg.type = "identify" ∧ msg.isAI = true then
    ({ p with isAI := true }, st, [])
  else
    handleMessage e now msg pid p st

/-- The connection-accept sequence of `wss.on('connection')` in
`main.js`: create the player, probe the spawn surface at the rounded
spawn x, set `y` and `onGround` (the source sets no `velocityY`),
assign the zone, send `welcome` and broadcast `playerJoined` (the
`existingPlayers` reply, which needs the other players' registry, is
elided: no claim inspects it). -/
def acceptConnection (e : WorldEnv) (ov : Overrides) (reg : ZoneReg)
    (id : String) (now : ℤ) : Player × ZoneReg × List OutEvent :=
  let player := createPlayer id now
  let spawnY := findSpawnSurface e ov (jsRound player.x)
  let player := { player with y := (spawnY : ℚ), onGround := some true }
  let az := assignPlayerToZone reg id player.x player.y
  let player := { player with zone := some az.1 }
  (player, az.2,
   [.reply (.welcome id player.x player.y az.1),
    .toZone (some az.1)
      (.playerJoinedAt id player.name player.color player.x player.y)
      (some id)])

/-- The chunk synthesis as seen from the running server: `generateChunk`
reads only the module constant `WORLD.SEED` (and the noise function);
the mutable server state and the clock are passed here explicitly to
state that independence. -/
def serverChunk (e : WorldEnv) (_st : ServerState) (_now : ℤ)
    (cx cy : ℤ) : Chunk :=
  generateChunk e cx cy

/-- A concrete noise model (constant 0) for closed instances; the
claims hold for every noise model. -/
def constEnv : WorldEnv :=
  { noise := fun _ => 0, seed := 12345 }

/-- A server state with no overrides and the freshly initialised zone
registry. -/
def emptyState : ServerState :=
  { overrides := [], zones := initialZoneReg }

/-- A baseline concrete player (a fresh `createPlayer` at time 0). -/
def basePlayer : Player := createPlayer "p" 0

/-- A concrete move message requesting `x = 26/5` (= 5.2). -/
def exMsgC5 : ClientMsg := { type := "move", x := some (26/5) }

/-- A concrete player standing at `(0, 11/2)` (y = 5.5), on the ground
in the central zone. -/
def exPlayerC5 : Player :=
  { basePlayer with
      y := 11/2
      zone := some "zone_central"
      onGround := some true }

/-- Concrete world state for the move scenario: AIR at `(6, 5)` and
STONE at `(6, 6)`. -/
def exStateC5 : ServerState :=
  { overrides := [((6, 5), 0), ((6, 6), 2)], zones := initialZoneReg }

/-- A concrete move message with a jump request at the player's own
position. -/
def exMsgC2 : ClientMsg := { type := "move", x := some 0, jump := true }

/-- A concrete grounded player at the origin in the central zone. -/
def exPlayerC2 : Player :=
  { basePlayer with
      zone := some "zone_central"
      onGround := some true }

/-- The source's double-remainder `((w % 32) + 32) % 32` (JS truncated
remainder) is the mathematical nonnegative residue `w % 32`. -/
lemma jsRem_local (z : ℤ) : jsRem (jsRem z 32 + 32) 32 = z % 32 := by
  unfold jsRem
  split_ifs <;> omega

/-- After `zoneAdd reg z pid`, zone `z`'s member list contains `pid`. -/
lemma mem_getZonePlayers_zoneAdd (reg : ZoneReg) (z pid : String) :
    pid ∈ getZonePlayers (zoneAdd reg z pid) z := by
  induction reg with
  | nil => simp [zoneAdd, getZonePlayers, List.lookup]
  | cons hd tl ih =>
      obtain ⟨z', members⟩ := hd
      by_cases h : z' = z
      · subst h
        simp only [zoneAdd, if_pos rfl, getZonePlayers, List.lookup,
          beq_self_eq_true]
        split_ifs with hm
        · simpa using hm
        · simp
      · simp only [zoneAdd, if_neg h, getZonePlayers, List.lookup]
        have hb : (z == z') = false := by
          simp [beq_eq_false_iff_ne]
          exact fun hzz => h hzz.symm
        simp only [hb]
        exact ih

/-- C3: for every integer coordinate pair `(x, y)` with no override
stored, `getTile(x, y)` equals cell
`[((y mod 32)+32) mod 32][((x mod 32)+32) mod 32]` of
`generateChunk(floor(x/32), floor(y/32))` (stated with the canonical
nonnegative residue `% 32`, which the source's double-remainder
computes); in particular the local indices are valid (in `[0, 32)`)
also for negative world coordinates. -/
theorem C3_getTile_matches_generated_cell (e : WorldEnv) (ov : Overrides)
    (x y : ℤ) (h : List.lookup (x, y) ov = none) :
    getTile e ov x y =
      chunkCell (generateChunk e (Int.fdiv x 32) (Int.fdiv y 32))
        (y % 32).toNat (x % 32).toNat ∧
    0 ≤ x % 32 ∧ x % 32 < 32 ∧ 0 ≤ y % 32 ∧ y % 32 < 32 := by
  refine ⟨?_, Int.emod_nonneg x (by norm_num),
    Int.emod_lt_of_pos x (by norm_num),
    Int.emod_nonneg y (by norm_num),
    Int.emod_lt_of_pos y (by norm_num)⟩
  unfold getTile
  rw [h, jsRem_local, jsRem_local]

/-- C3 witness: a concrete negative coordinate with an empty override
store. -/
theorem C3_witness :
    List.lookup ((-1 : ℤ), (-33 : ℤ)) ([] : Overrides) = none ∧
    (getTile constEnv [] (-1) (-33) =
      chunkCell (generateChunk constEnv (Int.fdiv (-1) 32)
        (Int.fdiv (-33) 32))
        ((-33 : ℤ) % 32).toNat ((-1 : ℤ) % 32).toNat ∧
     0 ≤ (-1 : ℤ) % 32 ∧ (-1 : ℤ) % 32 < 32 ∧
     0 ≤ (-33 : ℤ) % 32 ∧ (-33 : ℤ) % 32 < 32) :=
  ⟨rfl, C3_getTile_matches_generated_cell constEnv [] (-1) (-33) rfl⟩

/-- C4: chunk generation is deterministic — under the same world seed
(and the same noise model, i.e. the same math library), the generated
grid does not depend on the ambient server state (overrides, zone
registry, other chunks) or on the clock: any two calls agree. -/
theorem C4_generateChunk_deterministic (e₁ e₂ : WorldEnv)
    (st₁ st₂ : ServerState) (now₁ now₂ : ℤ) (cx cy : ℤ)
    (hn : e₁.noise = e₂.noise) (hs : e₁.seed = e₂.seed) :
    serverChunk e₁ st₁ now₁ cx cy = serverChunk e₂ st₂ now₂ cx cy := by
  have he : e₁ = e₂ := by
    cases e₁
    cases e₂
    simp_all
  unfold serverChunk
  rw [he]

/-- C4 witness: two server states differing in clock, overrides and
zone registry produce the same chunk. -/
theorem C4_witness :
    serverChunk constEnv emptyState 0 3 (-1) =
      serverChunk constEnv
        { overrides := [((0, 0), 2)], zones := [] } 999 3 (-1) :=
  C4_generateChunk_deterministic constEnv constEnv emptyState
    { overrides := [((0, 0), 2)], zones := [] } 0 999 3 (-1) rfl rfl

/-- C8: for every coordinate `(x, y)` and every valid tile `t`,
`placeBlock(x, y, t)` followed by `removeBlock(x, y)` leaves
`getTile(x, y) = AIR`, regardless of the generated tile there, and
`removeBlock` is exactly `placeBlock` with tile `AIR` (an `AIR`
override is stored, not a deletion). -/
theorem C8_place_then_remove_yields_air (e : WorldEnv) (ov : Overrides)
    (x y t : ℤ) (h0 : 0 ≤ t) (h7 : t ≤ 7) :
    getTile e (removeBlock (placeBlock ov x y t).2 x y).2 x y = AIR ∧
    removeBlock ov x y = placeBlock ov x y AIR := by
  refine ⟨?_, rfl⟩
  have hp : placeBlock ov x y t = (true, ((x, y), t) :: ov) := by
    unfold placeBlock
    rw [if_neg (by omega)]
  rw [hp]
  unfold removeBlock placeBlock
  rw [if_neg (by simp [AIR])]
  unfold getTile
  simp [List.lookup, AIR]

/-- C8 witness: place stone at `(1, 2)` on an empty store, then remove
it. -/
theorem C8_witness :
    getTile constEnv (removeBlock (placeBlock [] 1 2 2).2 1 2).2 1 2 =
      AIR ∧
    removeBlock [] 1 2 = placeBlock [] 1 2 AIR :=
  C8_place_then_remove_yields_air constEnv [] 1 2 2 (by norm_num)
    (by norm_num)

/-- C7 counterexample: `assignPlayerToZone` does not remove the session
from its previous zone.  Assigning `"p"` at `(0, −200)` (zone_north)
and then at `(0, 0)` (zone_central) leaves `"p"` in both member sets,
refuting "it has been removed from any zone it previously belonged to /
appears in at most one zone's member set". -/
theorem C7_counterexample :
    (assignPlayerToZone
        (assignPlayerToZone initialZoneReg "p" 0 (-200)).2 "p" 0 0).1 =
      "zone_central" ∧
    "p" ∈ getZonePlayers
        (assignPlayerToZone
          (assignPlayerToZone initialZoneReg "p" 0 (-200)).2 "p" 0 0).2
        "zone_central" ∧
    "p" ∈ getZonePlayers
        (assignPlayerToZone
          (assignPlayerToZone initialZoneReg "p" 0 (-200)).2 "p" 0 0).2
        "zone_north" := by
  have hz1 : getZoneForPosition 0 (-200) = "zone_north" := by
    unfold getZoneForPosition
    norm_num [ZONE_DEFINITIONS, List.find?, ZONE_DEFAULT]
  have hz2 : getZoneForPosition 0 0 = "zone_central" := by
    unfold getZoneForPosition
    norm_num [ZONE_DEFINITIONS, List.find?, ZONE_DEFAULT]
  simp [assignPlayerToZone, hz1, hz2, initialZoneReg, ZONE_DEFINITIONS,
    zoneAdd, getZonePlayers, List.lookup]

/-- C7 amended: `assign(sessionId, x, y)` returns `zoneOf(x, y)` and
adds the session id to that zone's member set; it performs no removal
(removal from the previous zone is done by `checkZoneTransfer` on moves
and by `removePlayerFromZone` on disconnect), so the session may remain
in a previously assigned zone's member set as well. -/
theorem C7_assign_adds_to_target_zone (reg : ZoneReg) (pid : String)
    (x y : ℚ) :
    (assignPlayerToZone reg pid x y).1 = getZoneForPosition x y ∧
    pid ∈ getZonePlayers (assignPlayerToZone reg pid x y).2
        (assignPlayerToZone reg pid x y).1 :=
  ⟨rfl, mem_getZonePlayers_zoneAdd reg _ pid⟩

/-- C6 counterexample: an `identify {isAI:true}` frame arriving 10 ms
after the previous accepted message is *not* dropped — the dispatcher
in `main.js` handles it before the rate limiter — and it mutates state
(the `isAI` flag flips), refuting the claim for the `identify` type. -/
theorem C6_counterexample :
    ((10 : ℤ) - basePlayer.lastMessageAt < 50) ∧
    basePlayer.isAI = false ∧
    (receiveMessage constEnv 10 { type := "identify", isAI := true }
        "p" basePlayer emptyState).1.isAI = true := by
  refine ⟨by decide, rfl, ?_⟩
  simp [receiveMessage]

/-- C6 amended: every inbound message *other than*
`identify {isAI:true}` arriving within 50 ms of the previous accepted
message from the same session is dropped silently: the player and the
world state are unchanged and nothing is sent; `identify {isAI:true}`
bypasses the rate limiter and always flips the agent flag. -/
theorem C6_rate_limit_silent_drop (e : WorldEnv) (now : ℤ)
    (msg : ClientMsg) (pid : String) (p : Player) (st : ServerState)
    (hid : ¬(msg.type = "identify" ∧ msg.isAI = true))
    (hfast : now - p.lastMessageAt < 50) :
    receiveMessage e now msg pid p st = (p, st, []) := by
  unfold receiveMessage handleMessage
  rw [if_neg hid, if_pos hfast]

/-- C6 witness: a `chat` frame 10 ms after the previous accepted
message is dropped without any effect. -/
theorem C6_witness :
    ¬((({ type := "chat", message := some "hi" } : ClientMsg).type =
        "identify") ∧
      ({ type := "chat", message := some "hi" } : ClientMsg).isAI =
        true) ∧
    ((10 : ℤ) - basePlayer.lastMessageAt < 50) ∧
    receiveMessage constEnv 10 { type := "chat", message := some "hi" }
        "p" basePlayer emptyState = (basePlayer, emptyState, []) :=
  ⟨by decide, by decide,
   C6_rate_limit_silent_drop constEnv 10
     { type := "chat", message := some "hi" } "p" basePlayer emptyState
     (by decide) (by decide)⟩

/-- C9: a `removeBlock` request with integer coordinates inside the
range gate whose target tile is currently `AIR` produces exactly an
`error` reply "No block to remove at that position": no override is
written, nothing is broadcast, and the server state is unchanged. -/
theorem C9_remove_air_is_error (e : WorldEnv) (msg : ClientMsg)
    (p : Player) (pid : String) (st : ServerState) (qx qy : ℚ)
    (hx : msg.x = some qx) (hy : msg.y = some qy)
    (hdx : qx.den = 1) (hdy : qy.den = 1)
    (hrx : |qx.num - jsRound p.x| ≤ (if p.isAI then 50 else 10))
    (hry : |qy.num - jsRound p.y| ≤ (if p.isAI then 50 else 10))
    (hair : getTile e st.overrides qx.num qy.num = AIR) :
    handleRemoveBlock e msg p pid st =
      (p, st,
       [.reply (.errorMsg "No block to remove at that position")]) := by
  unfold handleRemoveBlock
  simp only [hx, hy]
  rw [if_neg (show ¬(qx.den ≠ 1 ∨ qy.den ≠ 1) by simp [hdx, hdy])]
  rw [if_neg (not_or.mpr ⟨not_lt.mpr hrx, not_lt.mpr hry⟩)]
  rw [if_pos hair]

/-- C9 witness: a `removeBlock` at `(3, 0)` whose current tile is an
`AIR` override, from a player at the origin. -/
theorem C9_witness :
    (3 : ℚ).den = 1 ∧ (0 : ℚ).den = 1 ∧
    |(3 : ℚ).num - jsRound basePlayer.x| ≤
      (if basePlayer.isAI then 50 else 10) ∧
    |(0 : ℚ).num - jsRound basePlayer.y| ≤
      (if basePlayer.isAI then 50 else 10) ∧
    getTile constEnv [((3, 0), 0)] (3 : ℚ).num (0 : ℚ).num = AIR ∧
    handleRemoveBlock constEnv
        { type := "removeBlock", x := some 3, y := some 0 } basePlayer
        "p"
        { overrides := [((3, 0), 0)], zones := initialZoneReg } =
      (basePlayer,
       { overrides := [((3, 0), 0)], zones := initialZoneReg },
       [.reply (.errorMsg "No block to remove at that position")]) := by
  refine ⟨by norm_num, by norm_num, ?_, ?_, ?_, ?_⟩
  · norm_num [jsRound, basePlayer, createPlayer]
  · norm_num [jsRound, basePlayer, createPlayer]
  · norm_num [getTile, List.lookup, AIR]
  · exact C9_remove_air_is_error constEnv _ basePlayer "p" _ 3 0 rfl rfl
      (by norm_num) (by norm_num)
      (by norm_num [jsRound, basePlayer, createPlayer])
      (by norm_num [jsRound, basePlayer, createPlayer])
      (by norm_num [getTile, List.lookup, AIR])

/-- C10: under the same gating, `handleRemoveBlock` replies with an
error if and only if the target's current tile is `AIR`; every non-AIR
tile — solidity not required — is removed by writing an `AIR` override
and broadcasting a `blockUpdate` to the zone. -/
theorem C10_remove_errors_iff_air (e : WorldEnv) (msg : ClientMsg)
    (p : Player) (pid : String) (st : ServerState) (qx qy : ℚ)
    (hx : msg.x = some qx) (hy : msg.y = some qy)
    (hdx : qx.den = 1) (hdy : qy.den = 1)
    (hrx : |qx.num - jsRound p.x| ≤ (if p.isAI then 50 else 10))
    (hry : |qy.num - jsRound p.y| ≤ (if p.isAI then 50 else 10)) :
    handleRemoveBlock e msg p pid st =
      (if getTile e st.overrides qx.num qy.num = AIR then
        (p, st,
         [.reply (.errorMsg "No block to remove at that position")])
       else
        (p,
         { st with overrides := ((qx.num, qy.num), AIR) :: st.overrides },
         [.toZone p.zone (.blockUpdate qx.num qy.num AIR pid) none])) := by
  unfold handleRemoveBlock
  simp only [hx, hy]
  rw [if_neg (show ¬(qx.den ≠ 1 ∨ qy.den ≠ 1) by simp [hdx, hdy])]
  rw [if_neg (not_or.mpr ⟨not_lt.mpr hrx, not_lt.mpr hry⟩)]
  by_cases hair : getTile e st.overrides qx.num qy.num = AIR
  · rw [if_pos hair, if_pos hair]
  · rw [if_neg hair, if_neg hair]
    simp [removeBlock, placeBlock, AIR]

/-- C10 witness: a `removeBlock` at `(2, 0)` whose current tile is
WATER — non-solid and non-AIR — succeeds per the theorem's non-error
branch. -/
theorem C10_witness :
    (2 : ℚ).den = 1 ∧ (0 : ℚ).den = 1 ∧
    |(2 : ℚ).num - jsRound basePlayer.x| ≤
      (if basePlayer.isAI then 50 else 10) ∧
    |(0 : ℚ).num - jsRound basePlayer.y| ≤
      (if basePlayer.isAI then 50 else 10) ∧
    getTile constEnv [((2, 0), 4)] (2 : ℚ).num (0 : ℚ).num = WATER ∧
    WATER ≠ AIR ∧ WATER ∉ SOLID_TILES ∧
    handleRemoveBlock constEnv
        { type := "removeBlock", x := some 2, y := some 0 } basePlayer
        "p"
        { overrides := [((2, 0), 4)], zones := initialZoneReg } =
      (if getTile constEnv [((2, 0), 4)] (2 : ℚ).num (0 : ℚ).num = AIR
       then
        (basePlayer,
         { overrides := [((2, 0), 4)], zones := initialZoneReg },
         [.reply (.errorMsg "No block to remove at that position")])
       else
        (basePlayer,
         { overrides := (((2 : ℚ).num, (0 : ℚ).num), AIR) ::
             [((2, 0), 4)],
           zones := initialZoneReg },
         [.toZone basePlayer.zone
           (.blockUpdate (2 : ℚ).num (0 : ℚ).num AIR "p") none])) := by
  refine ⟨by norm_num, by norm_num, ?_, ?_, ?_, by norm_num [WATER, AIR],
    by decide, ?_⟩
  · norm_num [jsRound, basePlayer, createPlayer]
  · norm_num [jsRound, basePlayer, createPlayer]
  · norm_num [getTile, List.lookup, WATER]
  · exact C10_remove_errors_iff_air constEnv _ basePlayer "p" _ 2 0 rfl
      rfl (by norm_num) (by norm_num)
      (by norm_num [jsRound, basePlayer, createPlayer])
      (by norm_num [jsRound, basePlayer, createPlayer])

/-- The zone-transfer step never touches the player's position or
physics fields: only `zone` may change. -/
lemma moveZoneTransferStep_fields (pid : String) (p : Player)
    (st : ServerState) :
    (moveZoneTransferStep pid p st).1.x = p.x ∧
    (moveZoneTransferStep pid p st).1.y = p.y ∧
    (moveZoneTransferStep pid p st).1.velocityY = p.velocityY ∧
    (moveZoneTransferStep pid p st).1.onGround = p.onGround := by
  unfold moveZoneTransferStep
  rcases h : (checkZoneTransfer st.zones pid p.zone p.x p.y).1 with _ | nz <;>
    simp [h]

/-- An accepted `move` with `jump` requested by a grounded player sets
`velocityY := -280` and clears `onGround` (whatever the collision
outcome and any zone transfer). -/
lemma handleMove_jump_effect (e : WorldEnv) (msg : ClientMsg)
    (p : Player) (pid : String) (st : ServerState) (qx : ℚ)
    (hx : msg.x = some qx) (hdx : ¬(|qx - p.x| > 20))
    (hj : msg.jump = true) (hg : p.onGround = some true) :
    (handleMove e msg p pid st).1.velocityY = some (-280) ∧
    (handleMove e msg p pid st).1.onGround = some false := by
  unfold handleMove
  simp only [hx]
  rw [if_neg hdx]
  split_ifs <;>
    first
      | exact ⟨((moveZoneTransferStep_fields pid _ st).2.2.1).trans rfl,
          ((moveZoneTransferStep_fields pid _ st).2.2.2).trans rfl⟩
      | simp_all

/-- The committed `x` of an accepted `move`: both collision probes of
the source sample the same row `⌊player.y⌋` (the feet probe floors
`⌊player.y⌋ + 0.9`), so `x` commits exactly when the tile at the
candidate column and row `⌊player.y⌋` is non-solid. -/
lemma handleMove_x_update (e : WorldEnv) (msg : ClientMsg) (p : Player)
    (pid : String) (st : ServerState) (qx : ℚ)
    (hx : msg.x = some qx) (hdx : ¬(|qx - p.x| > 20)) :
    (handleMove e msg p pid st).1.x =
      (if getTile e st.overrides
          ⌊qx + (if qx > p.x then (9 : ℚ)/10 else 0)⌋ ⌊p.y⌋ ∈ SOLID_TILES
       then p.x else qx) := by
  have hfeet : (⌊((⌊p.y⌋ : ℤ) : ℚ) + 9/10⌋ : ℤ) = ⌊p.y⌋ := by
    rw [Int.floor_int_add]
    norm_num
  have hhead : (⌊((⌊p.y⌋ : ℤ) : ℚ)⌋ : ℤ) = ⌊p.y⌋ := Int.floor_intCast _
  unfold handleMove
  simp only [hx]
  rw [if_neg hdx, hhead, hfeet]
  simp only [or_self]
  split_ifs <;>
    exact ((moveZoneTransferStep_fields pid _ st).1).trans rfl

/-- C1: on session accept the new player's state has `onGround = true`
and its spawn `y` comes from the `findSpawnSurface` column scan at the
rounded spawn `x` — but `verticalVelocity` is *not* 0: neither
`createPlayer` nor the connection handler ever sets `velocityY`, so it
is still absent (`undefined`) before the first physics tick, which will
then compute `undefined + GRAVITY·dt = NaN`. -/
theorem C1_accept_initial_state (e : WorldEnv) (ov : Overrides)
    (reg : ZoneReg) (id : String) (now : ℤ) :
    (acceptConnection e ov reg id now).1.onGround = some true ∧
    (acceptConnection e ov reg id now).1.y =
      ((findSpawnSurface e ov (jsRound (createPlayer id now).x) : ℤ) : ℚ) ∧
    (acceptConnection e ov reg id now).1.velocityY = none ∧
    (acceptConnection e ov reg id now).1.velocityY ≠ some 0 := by
  have hv : (acceptConnection e ov reg id now).1.velocityY = none := rfl
  exact ⟨rfl, rfl, hv, by rw [hv]; simp⟩

/-- C2: an accepted `move` with `jump == true` from a grounded player
does clear `onGround`, but it sets the vertical velocity to the
hardcoded `-280` (a frontend pixel-scale value), not to the
`JUMP_VELOCITY = -14` tiles/s that `main.js` defines (and never
uses). -/
theorem C2_jump_impulse_hardcoded (e : WorldEnv) (msg : ClientMsg)
    (p : Player) (pid : String) (st : ServerState) (qx : ℚ)
    (hx : msg.x = some qx) (hdx : |qx - p.x| ≤ 20)
    (hj : msg.jump = true) (hg : p.onGround = some true) :
    (handleMove e msg p pid st).1.velocityY = some (-280) ∧
    (handleMove e msg p pid st).1.onGround = some false ∧
    ((-280 : ℚ) ≠ -14) :=
  ⟨(handleMove_jump_effect e msg p pid st qx hx (not_lt.mpr hdx) hj hg).1,
   (handleMove_jump_effect e msg p pid st qx hx (not_lt.mpr hdx) hj hg).2,
   by norm_num⟩

/-- C2 witness: a grounded player at the origin jumps in place. -/
theorem C2_witness :
    exMsgC2.x = some 0 ∧ |((0 : ℚ)) - exPlayerC2.x| ≤ 20 ∧
    exMsgC2.jump = true ∧ exPlayerC2.onGround = some true ∧
    ((handleMove constEnv exMsgC2 exPlayerC2 "p" emptyState).1.velocityY =
       some (-280) ∧
     (handleMove constEnv exMsgC2 exPlayerC2 "p" emptyState).1.onGround =
       some false ∧
     ((-280 : ℚ) ≠ -14)) :=
  ⟨rfl, by norm_num [exPlayerC2, basePlayer, createPlayer], rfl, rfl,
   C2_jump_impulse_hardcoded constEnv exMsgC2 exPlayerC2 "p" emptyState 0
     rfl (by norm_num [exPlayerC2, basePlayer, createPlayer]) rfl rfl⟩

/-- C5 counterexample: with the player at `y = 5.5` and STONE at the
candidate column in row `⌊5.5 + 0.9⌋ = 6` (the claim's feet row) but
AIR in row `⌊5.5⌋ = 5`, the claim predicts the move is blocked — yet
the handler commits `x` to the requested `5.2`, because its feet probe
`Math.floor(Math.floor(y) + 0.9)` also lands in row 5. -/
theorem C5_counterexample :
    exMsgC5.x = some (26/5) ∧
    |((26 : ℚ)/5) - exPlayerC5.x| ≤ 20 ∧
    getTile constEnv exStateC5.overrides
      ⌊(26 : ℚ)/5 + (9 : ℚ)/10⌋ ⌊exPlayerC5.y + (9 : ℚ)/10⌋ ∈
      SOLID_TILES ∧
    (handleMove constEnv exMsgC5 exPlayerC5 "p" exStateC5).1.x = 26/5 ∧
    exPlayerC5.x ≠ 26/5 := by
  have hx5 : exPlayerC5.x = 0 := rfl
  have hy5 : exPlayerC5.y = 11/2 := rfl
  have hcol : (⌊(26 : ℚ)/5 + (9 : ℚ)/10⌋ : ℤ) = 6 := by norm_num
  refine ⟨rfl, by rw [hx5]; norm_num [abs_le], ?_, ?_, by rw [hx5]; norm_num⟩
  · have hrow : (⌊exPlayerC5.y + (9 : ℚ)/10⌋ : ℤ) = 6 := by
      rw [hy5]
      norm_num
    rw [hcol, hrow]
    decide
  · rw [handleMove_x_update constEnv exMsgC5 exPlayerC5 "p" exStateC5
      (26/5) rfl (by rw [hx5]; norm_num [abs_le])]
    rw [hx5, hy5]
    rw [if_pos (show (26 : ℚ)/5 > 0 by norm_num)]
    rw [hcol, show (⌊(11 : ℚ)/2⌋ : ℤ) = 5 by norm_num]
    rw [if_neg (by decide)]

/-- C5 amended: for every accepted move message (`|x − player.x| ≤ 20`)
the handler checks the tile at the candidate horizontal position at the
single row `floor(player.y)` — the source's feet probe
`Math.floor(Math.floor(player.y) + 0.9)` resolves to the same row as
the head probe — and `player.x` is left unchanged exactly when that
tile is solid, otherwise it becomes the requested `x`. -/
theorem C5_horizontal_collision_single_row (e : WorldEnv)
    (msg : ClientMsg) (p : Player) (pid : String) (st : ServerState)
    (qx : ℚ) (hx : msg.x = some qx) (hdx : |qx - p.x| ≤ 20) :
    (handleMove e msg p pid st).1.x =
      (if getTile e st.overrides
          ⌊qx + (if qx > p.x then (9 : ℚ)/10 else 0)⌋ ⌊p.y⌋ ∈ SOLID_TILES
       then p.x else qx) :=
  handleMove_x_update e msg p pid st qx hx (not_lt.mpr hdx)

/-- C5 witness: the amended statement applied at the concrete scenario
of the counterexample. -/
theorem C5_witness :
    exMsgC5.x = some (26/5) ∧ |((26 : ℚ)/5) - exPlayerC5.x| ≤ 20 ∧
    (handleMove constEnv exMsgC5 exPlayerC5 "p" exStateC5).1.x =
      (if getTile constEnv exStateC5.overrides
          ⌊(26 : ℚ)/5 + (if (26 : ℚ)/5 > exPlayerC5.x then (9 : ℚ)/10
            else 0)⌋ ⌊exPlayerC5.y⌋ ∈ SOLID_TILES
       then exPlayerC5.x else 26/5) :=
  ⟨rfl, by norm_num [exPlayerC5, basePlayer, createPlayer, abs_le],
   C5_horizontal_collision_single_row constEnv exMsgC5 exPlayerC5 "p"
     exStateC5 (26/5) rfl
     (by norm_num [exPlayerC5, basePlayer, createPlayer, abs_le])⟩
